import Mathlib

/-!
Verification development for the LOONE daily lake simulation engine.

The definitions below are shallow embeddings of the Python sources:
  * `src/AP_FNs.py` - the Adaptive Protocol / THC rule functions,
  * `src/loone/loone_q/LOONE_Q.py` - the daily orchestrator helpers,
  * `src/loone/data/model_variables.py` - the zero-initialised state arrays.
Python floats are modelled as rationals; a Python local that may be left
unbound is modelled with `Option`, and a `return` of such a local is an
`Except` value (`.error` models the raised `UnboundLocalError`).
-/

namespace Loone

/-- A Python float value: either the `np.nan` placeholder or a real number. -/
inductive PyFloat where
  | nan : PyFloat
  | val (q : ℚ) : PyFloat
  deriving DecidableEq, Repr

/-- Errors raised by the embedded Python code. -/
inductive PyErr where
  | unboundLocal : PyErr
  | zeroDivision : PyErr
  deriving DecidableEq, Repr

/-- Holds (`true`) iff the result is a successfully returned real (non-NaN) number. -/
def isRealOk : Except PyErr PyFloat → Bool
  | Except.ok (PyFloat.val _) => true
  | _ => false

/-- Holds (`true`) iff the result is a successfully returned NaN placeholder. -/
def isNanOk : Except PyErr PyFloat → Bool
  | Except.ok PyFloat.nan => true
  | _ => false

/-- Holds (`true`) iff evaluation raised an error. -/
def isRaised : Except PyErr PyFloat → Bool
  | Except.error _ => true
  | _ => false

/-!  ## src/AP_FNs.py  -/

/-- Embeds `AP_FNs.Forecast_D_Sal`: options 1 and 2 reach `pass` and leave the local
`F` unbound, so `return F` raises; option 3 sets `F = np.nan`. -/
def Forecast_D_Sal (optSalFcast : ℤ) : Except PyErr PyFloat :=
  let F : Option PyFloat :=
    if optSalFcast = 1 then none
    else if optSalFcast = 2 then none
    else if optSalFcast = 3 then some PyFloat.nan
    else none
  match F with
  | some v => Except.ok v
  | none => Except.error PyErr.unboundLocal

/-- Embeds `AP_FNs.n30d_mavg`: same structure as `Forecast_D_Sal`. -/
def n30d_mavg (optSalFcast : ℤ) : Except PyErr PyFloat :=
  let F : Option PyFloat :=
    if optSalFcast = 1 then none
    else if optSalFcast = 2 then none
    else if optSalFcast = 3 then some PyFloat.nan
    else none
  match F with
  | some v => Except.ok v
  | none => Except.error PyErr.unboundLocal

/-- Embeds `AP_FNs.LORS08_bf_rel`. -/
def LORS08_bf_rel (S77BS_AP : ℚ) (n30davgForecast : Bool) : Bool :=
  if S77BS_AP > 0 then n30davgForecast else false

/-- Embeds `AP_FNs.LDS_LC6_1`. -/
def LDS_LC6_1 (Late_Dry_Season LowChance_Check : Bool) (lateDrySeasonOption : ℤ) : Bool :=
  if lateDrySeasonOption = 1 then
    if Late_Dry_Season = true then LowChance_Check else false
  else LowChance_Check

/-- Embeds `AP_FNs.All_4`. -/
def All_4 (lors08 lds : Bool) : Bool :=
  if lors08 = true then lds else false

/-- Embeds `AP_FNs.Sabf`. -/
def Sabf (scheduleZone : ℤ) : Bool :=
  if scheduleZone > 3 then true else false

/-- Embeds `AP_FNs.All_4andStage`. -/
def All_4andStage (a4 sabf : Bool) : Bool :=
  if a4 = true ∧ sabf = true then true else false

/-- Embeds `AP_FNs.All_4andStagein`. -/
def All_4andStagein (a4 sabf : Bool) : Bool :=
  if a4 = true ∧ sabf = false then true else false

/-- Embeds `AP_FNs.P_AP_BF_Stg`. -/
def P_AP_BF_Stg (scheduleZone : ℤ) (S77BS_AP : ℚ) : Bool :=
  if (scheduleZone > 3 ∧ scheduleZone < 7) ∧ S77BS_AP > 0 then true else false

/-- Embeds `AP_FNs.Logic_test_1`. -/
def Logic_test_1 (a4Stage pApBfStg : Bool) (optNoApAboveBfSb : ℤ) : Bool :=
  if optNoApAboveBfSb = 0 then a4Stage else pApBfStg

/-- Embeds `AP_FNs.Post_Ap_Baseflow`. -/
def Post_Ap_Baseflow (logicTest1 : Bool) (S77BS_AP : ℚ) (a4StageIn : Bool)
    (Choose_1 : ℚ) : ℚ :=
  if logicTest1 = true then S77BS_AP
  else if a4StageIn = true then min S77BS_AP Choose_1
  else 0

/-- Embeds `AP_FNs.Choose_PAPEWS_1`. -/
def Choose_PAPEWS_1 (wsmZone : ℤ) (apcb1 apcb2 apcb3 apcb4 : ℚ) : ℚ :=
  if wsmZone = 1 then apcb1 / 100
  else if wsmZone = 2 then apcb2 / 100
  else if wsmZone = 3 then apcb3 / 100
  else if wsmZone = 4 then apcb4 / 100
  else -9999

/-- Embeds `AP_FNs.Post_AP_EWS`. -/
def Post_AP_EWS (athcNora : Bool) (wsmZone : ℤ) (choosePapews1 choosePapews2 calEstEws : ℚ) : ℚ :=
  if athcNora = true then
    if wsmZone = 0 then calEstEws
    else (1 - choosePapews1) * choosePapews2
  else 0

/-!  ## src/loone/loone_q/LOONE_Q.py - per-day helper computations  -/

/-- A Python division, raising `ZeroDivisionError` on a zero divisor. -/
def pyDiv (a b : ℚ) : Except PyErr ℚ :=
  if b = 0 then Except.error PyErr.zeroDivision else Except.ok (a / b)

/-- Embeds `_calculate_demand_not_supplied`: if the LOSA demand is zero the result is
0 by default and no division is evaluated; otherwise it is
`Cut_back / demand * 100`. -/
def Dem_N_Sup_calc (losaDmd cutBack : ℚ) : Except PyErr ℚ :=
  if losaDmd = 0 then Except.ok 0
  else (pyDiv cutBack losaDmd).map (fun x => x * 100)

/-- The pulse-table row index computed at all four pulse lookup sites of
`_calculate_outlet2dsrs` and `_calculate_outlet1usrs`:
`PlsDay - 1 if PlsDay - 1 >= 0 else len(Pulses) - 1`. -/
def pulseRowIndex (plsDay : ℤ) (nPulses : ℕ) : ℤ :=
  if plsDay - 1 ≥ 0 then plsDay - 1 else (nPulses : ℤ) - 1

/-- The S-80 pulse-column lookup `data.Pulses.at[rowIndex, "S-80_L*_..."]`,
reading the row chosen by `pulseRowIndex`; `none` models a missing row label. -/
def s80PulseLookup (pulses : List ℚ) (plsDay : ℤ) : Option ℚ :=
  pulses.get? (pulseRowIndex plsDay pulses.length).toNat

/-- The S-77 pulse-column lookup `data.Pulses.at[rowIndex, "S-77_L*_..."]`,
identical row arithmetic at the `_calculate_outlet1usrs` site. -/
def s77PulseLookup (pulses : List ℚ) (plsDay : ℤ) : Option ℚ :=
  pulses.get? (pulseRowIndex plsDay pulses.length).toNat

/-- Embeds `Zone_D_Branch_Code` (LOONE_Q.py lines 249-254):
`Trib*1000 + stage*100 + Seas*10 + MSeas*1`. -/
def Zone_D_Branch_Code_calc (trib stage seas mseas : ℤ) : ℤ :=
  trib * 1000 + stage * 100 + seas * 10 + mseas * 1

/-- Embeds `Zone_C_Branch_Code` (LOONE_Q.py lines 274-279):
`Trib*1000 + MetFcast*100 + Seas*10 + MSeas*1`. -/
def Zone_C_Branch_Code_calc (trib metFcast seas mseas : ℤ) : ℤ :=
  trib * 1000 + metFcast * 100 + seas * 10 + mseas * 1

/-- Embeds `Zone_B_Branch_Code` (LOONE_Q.py lines 293-298):
`Trib*1000 + Stage*100 + Zone_B_MetFcast*10 + Seas*1`. -/
def Zone_B_Branch_Code_calc (trib stage metFcast seas : ℤ) : ℤ :=
  trib * 1000 + stage * 100 + metFcast * 10 + seas * 1

/-- The composite-code formula exactly as the spec words it, for comparison:
`1000*tributary + 100*stage_or_met + 10*seasonal + 1*multiseasonal`. -/
def specBranchCode (trib stageOrMet seasonal multiseasonal : ℤ) : ℤ :=
  1000 * trib + 100 * stageOrMet + 10 * seasonal + 1 * multiseasonal

/-- A decision-tree sub-indicator code in the range addressed by the claim. -/
def isSubCode (x : ℤ) : Prop := 0 ≤ x ∧ x ≤ 9

instance (x : ℤ) : Decidable (isSubCode x) := by
  unfold isSubCode
  infer_instance

/-- The day-indexed arrays of `M_var` read or written by
`_calculate_dsto_and_storage`. -/
structure MState where
  NI_Supply : ℕ → ℚ
  RF : ℕ → ℚ
  ET : ℕ → ℚ
  Outlet2USBK : ℕ → ℚ
  Outlet1USBK : ℕ → ℚ
  WSA_MIA : ℕ → ℚ
  WSA_NNR : ℕ → ℚ
  Outlet1USEWS : ℕ → ℚ
  TotRegEW : ℕ → ℚ
  TotRegSo : ℕ → ℚ
  DSto : ℕ → ℚ

/-- Embeds `_calculate_dsto_and_storage` (LOONE_Q.py lines 1315-1330), restricted to
the `DSto[i+2]` write; 1.9835 (= 19835/10000) converts cfs-days to acre-feet. -/
def calculate_dsto (i : ℕ) (storage_deviation : ℕ → ℚ) (s : MState) : MState :=
  { s with
    DSto := Function.update s.DSto (i + 2)
      (s.NI_Supply (i + 2)
        + s.RF (i + 2)
        - s.ET (i + 2)
        + (19835 / 10000)
          * (s.Outlet2USBK (i + 2)
            + s.Outlet1USBK (i + 2)
            + s.WSA_MIA (i + 2)
            + s.WSA_NNR (i + 2)
            - s.Outlet1USEWS (i + 2))
        - s.TotRegEW (i + 2)
        - s.TotRegSo (i + 2)
        + storage_deviation (i + 2)) }

/-!  ## The adaptive-protocol tail policy (`_define_thc_class_normal_or_above`)  -/

/-- The guard of `_define_thc_class_normal_or_above` (LOONE_Q.py line 998):
the THC / adaptive-protocol module body runs only when `i < n_rows - 2`. -/
def thcInvoked (n_rows i : ℕ) : Bool := decide (i < n_rows - 2)

/-- One daily iteration's effect on a single adaptive-protocol output array:
when the guard holds, slot `i` is overwritten with the value computed for day
`i`; otherwise the array is untouched. -/
def thcWriteStep {α : Type} (n_rows : ℕ) (compute : ℕ → α) (arr : ℕ → α) (i : ℕ) : ℕ → α :=
  if i < n_rows - 2 then Function.update arr i (compute i) else arr

/-- The daily loop `for i in range(n_rows - 2)` of `LOONE_Q`, restricted to
one adaptive-protocol output array, started from the array zero-initialised
by `M_var.__init__` (model_variables.py lines 158-189). -/
def runTHCOutputs {α : Type} (n_rows : ℕ) (dflt : α) (compute : ℕ → α) : ℕ → α :=
  (List.range (n_rows - 2)).foldl (thcWriteStep n_rows compute) (fun _ => dflt)

/-!  ## The zone classifier threshold ladder (spec section 4.2)  -/

/-- Modelled from the spec: the zone classifier itself
(`lo_functions.Zone_Code` / `lo_functions.WSM_Zone`, imported from
`loone.utils`) is not under `src/`; only its call sites are. Spec section 4.2:
given stage and the threshold ladder (four water-shortage-management
breakpoints plus four schedule breakpoints), it "returns an ordinal zone code
using an inclusive-lower-bound threshold ladder (ties resolve to the lower
zone)". With the breakpoints listed in increasing stage order, the classifier
returns the ordinal position of the first breakpoint at or above the stage,
so each comparison against a breakpoint is inclusive and a stage exactly on a
boundary stays with the zone below the boundary. -/
def zoneLadderClass : List ℚ → ℚ → ℕ
  | [], _ => 0
  | t :: ts, stage => if stage ≤ t then 0 else zoneLadderClass ts stage + 1

/-!  ## Write footprint of the daily loop (LOONE_Q.py lines 1811-1855)

The frame claim is about which array cells each loop iteration writes, not
about the numeric values written, so the loop body is embedded at the level
of its write footprint: for iteration `i`, the list of (array, cell index)
pairs assigned by the body, in program order, including the `i >= 3`
(`DayFlags`), `i >= 6` (`dh_7days`) and `i < n_rows - 2` (THC module) guards.
-/

/-- The time-indexed `M_var` arrays assigned inside the daily loop. -/
inductive MVar where
  | WSM_Zone | Max_Supply | LOSA_Supply | NI_Supply | Cut_back | Dem_N_Sup
  | Zone_Code | LO_Zone
  | Zone_D_Trib | Zone_D_stage | Zone_D_Seas | Zone_D_MSeas
  | Zone_D_Branch_Code | Zone_D_Rel_Code
  | Zone_C_Trib | Zone_C_Seas | Zone_C_MSeas | Zone_C_MetFcast
  | Zone_C_Branch_Code | Zone_C_Rel_Code
  | Zone_B_Trib | Zone_B_Stage | Zone_B_Seas
  | Zone_B_Branch_Code | Zone_B_Rel_Code
  | DecTree_Relslevel | DayFlags | PlsDay | Release_Level | dh_7days
  | ZoneCodeminus1Code | ZoneCodeCode | Fraction_of_Zone_height
  | ReLevelCode_1 | ReLevelCode_2 | ReLevelCode_3_S80
  | Outlet2DS_Mult | Outlet2DS_Mult_2
  | Outlet2DSRS | Outlet2USRG1 | Sum_Outlet2USRG1 | Outlet2DSBS
  | Outlet2USBK | ROeast | Outlet2USBS | Sum_Outlet2USBK
  | Outlet2USRG_Code | Outlet2USRG | Outlet2DS
  | ReLevelCode_3_S77 | Outlet1US_Mult | Outlet1US_Mult_2
  | Outlet1USRS | Sum_Outlet1USRS | Outlet1USBK | ROwest
  | Outlet1DSBS | Outlet1USBS
  | THC_Class_normal_or_above | Lake_O_Stage_AP | Lake_O_Schedule_Zone
  | LStgCorres | LowChance_Check | Outlet1USRS_AP | Outlet1USBS_AP
  | Outlet1USRS_Pre_AP_S77_Baseflow | Forecast_D_Sal | n30d_mavg
  | n30davgForecast | LORS08_bf_rel | LDS_LC6_1 | S_O | All_4
  | Sabf | Swbf | Swbu | All_4andStage | All_4andStagein
  | P_AP_BF_Stg | Logic_test_1 | Post_Ap_Baseflow
  | Outlet1USRSplusPreAPS77bsf | AndEstNeedsLakeWater
  | AndLowChance61stagelessth11 | ATHCnora
  | Choose_PAPEWS_1 | Choose_PAPEWS_2 | Post_AP_EWS
  | Post_AP_Baseflow_EWS_cfs
  | Outlet1USBSAP | Outlet1USEWS | Outlet1USREG | Outlet1DS | TotRegEW
  | Choose_WCA | RegWCA | Choose_L8C51 | RegL8C51 | TotRegSo
  | Stage2ar | Stage2marsh | RF | ET
  | Choose_WSA_1 | Choose_WSA_2 | WSA_MIA | WSA_NNR
  | DSto | Storage | Lake_Stage
  deriving DecidableEq

/-- Each variable's fixed day offset: iteration `i` assigns the cell
`i + dayOffset v` of variable `v` (spec section 3: "every variable array
uses a fixed day-offset convention"). -/
def dayOffset : MVar → ℕ
  | .Zone_Code | .LO_Zone | .dh_7days
  | .ZoneCodeminus1Code | .ZoneCodeCode | .Fraction_of_Zone_height => 1
  | .Zone_D_Trib | .Zone_D_stage | .Zone_D_Seas | .Zone_D_MSeas
  | .Zone_D_Branch_Code | .Zone_D_Rel_Code
  | .Zone_C_Trib | .Zone_C_Seas | .Zone_C_MSeas | .Zone_C_MetFcast
  | .Zone_C_Branch_Code | .Zone_C_Rel_Code
  | .Zone_B_Trib | .Zone_B_Stage | .Zone_B_Seas
  | .Zone_B_Branch_Code | .Zone_B_Rel_Code
  | .DayFlags
  | .THC_Class_normal_or_above | .Lake_O_Stage_AP | .Lake_O_Schedule_Zone
  | .LStgCorres | .LowChance_Check | .Outlet1USRS_AP | .Outlet1USBS_AP
  | .Outlet1USRS_Pre_AP_S77_Baseflow | .Forecast_D_Sal | .n30d_mavg
  | .n30davgForecast | .LORS08_bf_rel | .LDS_LC6_1 | .S_O | .All_4
  | .Sabf | .Swbf | .Swbu | .All_4andStage | .All_4andStagein
  | .P_AP_BF_Stg | .Logic_test_1 | .Post_Ap_Baseflow
  | .Outlet1USRSplusPreAPS77bsf | .AndEstNeedsLakeWater
  | .AndLowChance61stagelessth11 | .ATHCnora
  | .Choose_PAPEWS_1 | .Choose_PAPEWS_2 | .Post_AP_EWS
  | .Post_AP_Baseflow_EWS_cfs => 0
  | _ => 2

/-- Writes of `_calculate_wsm_zone` through `DecTree_Relslevel[i+2]` of
`_calculate_release_levels`, as (variable, day-offset) pairs in program
order. -/
def instrsA : List (MVar × ℕ) :=
  [(.WSM_Zone, 2), (.Max_Supply, 2), (.LOSA_Supply, 2), (.NI_Supply, 2),
   (.Cut_back, 2), (.Dem_N_Sup, 2), (.Zone_Code, 1), (.LO_Zone, 1),
   (.Zone_D_Trib, 0), (.Zone_D_stage, 0), (.Zone_D_Seas, 0), (.Zone_D_MSeas, 0),
   (.Zone_D_Branch_Code, 0), (.Zone_D_Rel_Code, 0),
   (.Zone_C_Trib, 0), (.Zone_C_Seas, 0), (.Zone_C_MSeas, 0), (.Zone_C_MetFcast, 0),
   (.Zone_C_Branch_Code, 0), (.Zone_C_Rel_Code, 0),
   (.Zone_B_Trib, 0), (.Zone_B_Stage, 0), (.Zone_B_Seas, 0),
   (.Zone_B_Branch_Code, 0), (.Zone_B_Rel_Code, 0),
   (.DecTree_Relslevel, 2)]

/-- Writes `PlsDay[i+2]` and `Release_Level[i+2]` of `_calculate_release_levels`. -/
def instrsB : List (MVar × ℕ) := [(.PlsDay, 2), (.Release_Level, 2)]

/-- Writes of `_calculate_zone_codes` through `_calculate_outlet1usbs`. -/
def instrsC : List (MVar × ℕ) :=
  [(.ZoneCodeminus1Code, 1), (.ZoneCodeCode, 1), (.Fraction_of_Zone_height, 1),
   (.ReLevelCode_1, 2), (.ReLevelCode_2, 2), (.ReLevelCode_3_S80, 2),
   (.Outlet2DS_Mult, 2), (.Outlet2DS_Mult_2, 2),
   (.Outlet2DSRS, 2), (.Outlet2USRG1, 2), (.Sum_Outlet2USRG1, 2),
   (.Outlet2DSBS, 2),
   (.Outlet2USBK, 2), (.ROeast, 2), (.Outlet2USBS, 2), (.Sum_Outlet2USBK, 2),
   (.Outlet2USRG_Code, 2), (.Outlet2USRG, 2),
   (.Outlet2DS, 2),
   (.ReLevelCode_3_S77, 2), (.Outlet1US_Mult, 2), (.Outlet1US_Mult_2, 2),
   (.Outlet1USRS, 2), (.Sum_Outlet1USRS, 2),
   (.Outlet1USBK, 2), (.ROwest, 2), (.Outlet1DSBS, 2), (.Outlet1USBS, 2)]

/-- Writes of the THC / adaptive-protocol module (`THC_Class`, all at day
offset 0), including the two re-assignments of `Post_Ap_Baseflow[i]` and
`Post_AP_EWS[i]` back in `_define_thc_class_normal_or_above`. -/
def instrsTHC : List (MVar × ℕ) :=
  [(.THC_Class_normal_or_above, 0), (.Lake_O_Stage_AP, 0), (.Lake_O_Schedule_Zone, 0),
   (.LStgCorres, 0), (.LowChance_Check, 0), (.Outlet1USRS_AP, 0), (.Outlet1USBS_AP, 0),
   (.Outlet1USRS_Pre_AP_S77_Baseflow, 0), (.Forecast_D_Sal, 0), (.n30d_mavg, 0),
   (.n30davgForecast, 0), (.LORS08_bf_rel, 0), (.LDS_LC6_1, 0), (.S_O, 0), (.All_4, 0),
   (.Sabf, 0), (.Swbf, 0), (.Swbu, 0), (.All_4andStage, 0), (.All_4andStagein, 0),
   (.P_AP_BF_Stg, 0), (.Logic_test_1, 0), (.Post_Ap_Baseflow, 0),
   (.Outlet1USRSplusPreAPS77bsf, 0), (.AndEstNeedsLakeWater, 0),
   (.AndLowChance61stagelessth11, 0), (.ATHCnora, 0),
   (.Choose_PAPEWS_1, 0), (.Choose_PAPEWS_2, 0), (.Post_AP_EWS, 0),
   (.Post_AP_Baseflow_EWS_cfs, 0), (.Post_Ap_Baseflow, 0), (.Post_AP_EWS, 0)]

/-- Writes of `_calculate_outlet1usbsap` through `_calculate_lake_stage`. -/
def instrsD : List (MVar × ℕ) :=
  [(.Outlet1USBSAP, 2), (.Outlet1USEWS, 2), (.Outlet1USREG, 2), (.Outlet1DS, 2),
   (.TotRegEW, 2), (.Choose_WCA, 2), (.RegWCA, 2), (.Choose_L8C51, 2),
   (.RegL8C51, 2), (.TotRegSo, 2), (.Stage2ar, 2), (.Stage2marsh, 2),
   (.RF, 2), (.ET, 2), (.Choose_WSA_1, 2), (.Choose_WSA_2, 2),
   (.WSA_MIA, 2), (.WSA_NNR, 2), (.DSto, 2), (.Storage, 2), (.Lake_Stage, 2)]

/-- The (variable, day-offset) write instructions of one loop body run at
index `i`, with the three conditional writes of the body: `DayFlags[i]` only
when `i >= 3`, `dh_7days[i+1]` only when `i >= 6`, and the THC block only
when `i < n_rows - 2`. -/
def bodyInstrs (n_rows i : ℕ) : List (MVar × ℕ) :=
  instrsA ++ (if 3 ≤ i then [(MVar.DayFlags, 0)] else [])
    ++ instrsB ++ (if 6 ≤ i then [(MVar.dh_7days, 1)] else [])
    ++ instrsC ++ (if i < n_rows - 2 then instrsTHC else [])
    ++ instrsD

/-- The set of array cells assigned by loop iteration `i`: instruction
(v, d) writes cell `i + d` of array `v`. -/
def loopWrites (n_rows i : ℕ) : List (MVar × ℕ) :=
  (bodyInstrs n_rows i).map (fun p => (p.1, i + p.2))

end Loone

namespace Loone

/-!  ## Theorems for claims about `src/AP_FNs.py`  -/

/-- C2 counterexample: with `Opt_NoAP_above_BF_SB = 1`, schedule zone 4,
`S77BS_AP = 500` and `Choose_1 = 450`, the LORS baseflow-release gate is false
yet `Post_Ap_Baseflow` returns the unrestricted value `S77BS_AP = 500`, which
is neither the bounded fallback `min 500 450 = 450` nor `0`. -/
theorem post_ap_baseflow_unrestricted_despite_gate_false :
    LORS08_bf_rel 500 false = false ∧
    Post_Ap_Baseflow
      (Logic_test_1
        (All_4andStage (All_4 (LORS08_bf_rel 500 false) (LDS_LC6_1 false true 2)) (Sabf 4))
        (P_AP_BF_Stg 4 500) 1)
      500
      (All_4andStagein (All_4 (LORS08_bf_rel 500 false) (LDS_LC6_1 false true 2)) (Sabf 4))
      450 = 500 ∧
    (500 : ℚ) ≠ min 500 450 ∧ (500 : ℚ) ≠ 0 := by
  refine ⟨rfl, ?_, ?_, by norm_num⟩
  · rfl
  · rw [min_eq_right (by norm_num : (450:ℚ) ≤ 500)]
    norm_num

/-- C2 (amended): for every configuration, if the LORS baseflow-release gate
is false then `All_4` is false; and when additionally the configuration option
`Opt_NoAP_above_BF_SB` is 0, `Post_Ap_Baseflow` computed through the rule chain
never takes the unrestricted branch: it returns the bounded fallback
`min S77BS_AP Choose_1` or zero. -/
theorem all4_false_and_bounded_of_lors_false
    (lds sabfIn : Bool) (zone : ℤ) (s77bs choose1 : ℚ)
    (hgate : LORS08_bf_rel s77bs sabfIn = false) :
    All_4 (LORS08_bf_rel s77bs sabfIn) lds = false ∧
    (Post_Ap_Baseflow
        (Logic_test_1
          (All_4andStage (All_4 (LORS08_bf_rel s77bs sabfIn) lds) (Sabf zone))
          (P_AP_BF_Stg zone s77bs) 0)
        s77bs
        (All_4andStagein (All_4 (LORS08_bf_rel s77bs sabfIn) lds) (Sabf zone))
        choose1 = min s77bs choose1 ∨
      Post_Ap_Baseflow
        (Logic_test_1
          (All_4andStage (All_4 (LORS08_bf_rel s77bs sabfIn) lds) (Sabf zone))
          (P_AP_BF_Stg zone s77bs) 0)
        s77bs
        (All_4andStagein (All_4 (LORS08_bf_rel s77bs sabfIn) lds) (Sabf zone))
        choose1 = 0) := by
  rw [hgate]
  refine ⟨rfl, Or.inr ?_⟩
  simp [All_4, All_4andStage, All_4andStagein, Logic_test_1, Post_Ap_Baseflow]

/-- C2 witness: concrete run of the amended theorem. -/
theorem all4_false_and_bounded_of_lors_false_witness :
    LORS08_bf_rel 500 false = false ∧
    (All_4 (LORS08_bf_rel 500 false) true = false ∧
    (Post_Ap_Baseflow
        (Logic_test_1
          (All_4andStage (All_4 (LORS08_bf_rel 500 false) true) (Sabf 4))
          (P_AP_BF_Stg 4 500) 0)
        500
        (All_4andStagein (All_4 (LORS08_bf_rel 500 false) true) (Sabf 4))
        450 = min 500 450 ∨
      Post_Ap_Baseflow
        (Logic_test_1
          (All_4andStage (All_4 (LORS08_bf_rel 500 false) true) (Sabf 4))
          (P_AP_BF_Stg 4 500) 0)
        500
        (All_4andStagein (All_4 (LORS08_bf_rel 500 false) true) (Sabf 4))
        450 = 0)) :=
  ⟨rfl, all4_false_and_bounded_of_lors_false true false 4 500 450 rfl⟩

/-- C4 counterexample: selecting the remaining (third) salinity-forecast option
makes `Forecast_D_Sal` return the `np.nan` placeholder, not a real value. -/
theorem forecast_d_sal_option3_returns_nan :
    Forecast_D_Sal 3 = Except.ok PyFloat.nan ∧ isRealOk (Forecast_D_Sal 3) = false := by
  exact ⟨rfl, rfl⟩

/-- C4 (amended): the two unimplemented salinity-forecast policy branches
(options 1 and 2) raise an error from both `Forecast_D_Sal` and `n30d_mavg`
and never return the NaN placeholder, while the remaining option (3) returns
the `np.nan` placeholder rather than a real value. -/
theorem forecast_d_sal_stub_branches_raise :
    Forecast_D_Sal 1 = Except.error PyErr.unboundLocal ∧
    Forecast_D_Sal 2 = Except.error PyErr.unboundLocal ∧
    n30d_mavg 1 = Except.error PyErr.unboundLocal ∧
    n30d_mavg 2 = Except.error PyErr.unboundLocal ∧
    isNanOk (Forecast_D_Sal 1) = false ∧
    isNanOk (Forecast_D_Sal 2) = false ∧
    Forecast_D_Sal 3 = Except.ok PyFloat.nan ∧
    n30d_mavg 3 = Except.ok PyFloat.nan := by
  exact ⟨rfl, rfl, rfl, rfl, rfl, rfl, rfl, rfl⟩

/-- C10: for a WSM zone outside 1..4, `Choose_PAPEWS_1` returns the sentinel
-9999, and if the ATHCnora gate is true with such a nonzero zone,
`Post_AP_EWS` evaluates to `(1 - (-9999)) * Choose_PAPEWS_2 = 10000 * Choose_PAPEWS_2`. -/
theorem choose_papews_sentinel_propagates
    (wsmZone : ℤ) (apcb1 apcb2 apcb3 apcb4 c2 calEst : ℚ)
    (hz : wsmZone ≠ 1 ∧ wsmZone ≠ 2 ∧ wsmZone ≠ 3 ∧ wsmZone ≠ 4) :
    Choose_PAPEWS_1 wsmZone apcb1 apcb2 apcb3 apcb4 = -9999 ∧
    (wsmZone ≠ 0 →
      Post_AP_EWS true wsmZone (Choose_PAPEWS_1 wsmZone apcb1 apcb2 apcb3 apcb4) c2 calEst
        = 10000 * c2) := by
  obtain ⟨h1, h2, h3, h4⟩ := hz
  have hc : Choose_PAPEWS_1 wsmZone apcb1 apcb2 apcb3 apcb4 = -9999 := by
    simp [Choose_PAPEWS_1, h1, h2, h3, h4]
  refine ⟨hc, fun h0 => ?_⟩
  rw [hc]
  unfold Post_AP_EWS
  rw [if_pos rfl, if_neg h0]
  norm_num

/-- C10 witness: WSM zone 5 with `Choose_PAPEWS_2 = 300`. -/
theorem choose_papews_sentinel_propagates_witness :
    ((5:ℤ) ≠ 1 ∧ (5:ℤ) ≠ 2 ∧ (5:ℤ) ≠ 3 ∧ (5:ℤ) ≠ 4) ∧
    Choose_PAPEWS_1 5 40 30 20 10 = -9999 ∧
    ((5:ℤ) ≠ 0 → Post_AP_EWS true 5 (Choose_PAPEWS_1 5 40 30 20 10) 300 450 = 10000 * 300) :=
  ⟨by norm_num, choose_papews_sentinel_propagates 5 40 30 20 10 300 450 (by norm_num)⟩

/-!  ## Theorems for claims about `src/loone/loone_q/LOONE_Q.py`  -/

/-- C7: on a day with zero LOSA demand the demand-not-supplied percentage is 0
by default and no division is evaluated (so no division-by-zero error is
raised); with nonzero demand it is `Cut_back / demand * 100`. -/
theorem dem_n_sup_zero_demand_policy (losaDmd cutBack : ℚ) :
    (losaDmd = 0 → Dem_N_Sup_calc losaDmd cutBack = Except.ok 0) ∧
    (losaDmd ≠ 0 →
      Dem_N_Sup_calc losaDmd cutBack = Except.ok (cutBack / losaDmd * 100)) := by
  constructor
  · intro h
    simp [Dem_N_Sup_calc, h]
  · intro h
    simp [Dem_N_Sup_calc, pyDiv, h, Except.map]

/-- C7 witness: demand 0 gives 0; demand 4 with cutback 2 gives 50. -/
theorem dem_n_sup_zero_demand_policy_witness :
    Dem_N_Sup_calc 0 7 = Except.ok 0 ∧
    ((4:ℚ) ≠ 0 ∧ Dem_N_Sup_calc 4 2 = Except.ok (2 / 4 * 100)) :=
  ⟨(dem_n_sup_zero_demand_policy 0 7).1 rfl,
    by norm_num, (dem_n_sup_zero_demand_policy 4 2).2 (by norm_num)⟩

/-- C6: when the pulse-day row request `PlsDay - 1` is negative, both the S-80
and the S-77 pulse lookups read the last row of the Pulses table
(index `len(Pulses) - 1`) and no out-of-range lookup occurs. -/
theorem pulse_lookup_negative_request_wraps_to_last
    (pulses : List ℚ) (plsDay : ℤ)
    (hreq : plsDay - 1 < 0) (hne : pulses ≠ []) :
    s80PulseLookup pulses plsDay = some (pulses.getLast hne) ∧
    s77PulseLookup pulses plsDay = some (pulses.getLast hne) := by
  have hlen : 0 < pulses.length := List.length_pos.mpr hne
  have hidx : (pulseRowIndex plsDay pulses.length).toNat = pulses.length - 1 := by
    unfold pulseRowIndex
    rw [if_neg (by omega)]
    omega
  have hget : pulses.get? (pulses.length - 1) = some (pulses.getLast hne) := by
    rw [List.getLast_eq_get]
    exact List.get?_eq_get (by omega)
  constructor
  · unfold s80PulseLookup
    rw [hidx, hget]
  · unfold s77PulseLookup
    rw [hidx, hget]

/-- C6 witness: `PlsDay = 0` on a three-row pulse table reads the third row. -/
theorem pulse_lookup_negative_request_wraps_to_last_witness :
    ((0:ℤ) - 1 < 0) ∧ ([(11:ℚ), 22, 33] ≠ []) ∧
    s80PulseLookup [11, 22, 33] 0 = some ([(11:ℚ), 22, 33].getLast (by simp)) ∧
    s77PulseLookup [11, 22, 33] 0 = some ([(11:ℚ), 22, 33].getLast (by simp)) :=
  ⟨by norm_num, by simp,
    pulse_lookup_negative_request_wraps_to_last [11, 22, 33] 0 (by norm_num) (by simp)⟩

/-- C3 counterexample: for zone branch B, take tributary code 0, stage code 0,
met-forecast code 0 and seasonal code 5 (multiseasonal code 0 for the spec
formula): the code computes 5, but the claimed positional weighting
`1000*trib + 100*stage_or_met + 10*seasonal + 1*multiseasonal` yields 50. -/
theorem zone_b_branch_code_breaks_spec_weighting :
    Zone_B_Branch_Code_calc 0 0 0 5 = 5 ∧
    specBranchCode 0 0 5 0 = 50 ∧
    Zone_B_Branch_Code_calc 0 0 0 5 ≠ specBranchCode 0 0 5 0 := by
  decide

/-- C3 (amended): for sub-indicator codes in [0,9], the zone D and zone C
composite branch codes equal the spec weighting
`1000*tributary + 100*stage_or_met + 10*seasonal + 1*multiseasonal`, while the
zone B composite weights its met-forecast code by 10 and its seasonal code
by 1 (`1000*trib + 100*stage + 10*met + 1*seasonal`), with no multiseasonal
term. -/
theorem branch_code_positional_weighting
    (td sd ssd msd tc mc sc msc tb stb mb sb : ℤ)
    (hd1 : isSubCode td) (hd2 : isSubCode sd) (hd3 : isSubCode ssd) (hd4 : isSubCode msd)
    (hc1 : isSubCode tc) (hc2 : isSubCode mc) (hc3 : isSubCode sc) (hc4 : isSubCode msc)
    (hb1 : isSubCode tb) (hb2 : isSubCode stb) (hb3 : isSubCode mb) (hb4 : isSubCode sb) :
    Zone_D_Branch_Code_calc td sd ssd msd = specBranchCode td sd ssd msd ∧
    Zone_C_Branch_Code_calc tc mc sc msc = specBranchCode tc mc sc msc ∧
    Zone_B_Branch_Code_calc tb stb mb sb = specBranchCode tb stb mb sb := by
  refine ⟨?_, ?_, ?_⟩ <;>
    simp only [Zone_D_Branch_Code_calc, Zone_C_Branch_Code_calc,
      Zone_B_Branch_Code_calc, specBranchCode] <;> ring

/-- C3 witness: all twelve sub-codes instantiated inside [0,9]. -/
theorem branch_code_positional_weighting_witness :
    isSubCode 1 ∧ isSubCode 9 ∧
    (Zone_D_Branch_Code_calc 1 2 3 4 = specBranchCode 1 2 3 4 ∧
      Zone_C_Branch_Code_calc 5 6 7 8 = specBranchCode 5 6 7 8 ∧
      Zone_B_Branch_Code_calc 9 0 1 2 = specBranchCode 9 0 1 2) :=
  ⟨by decide, by decide,
    branch_code_positional_weighting 1 2 3 4 5 6 7 8 9 0 1 2
      (by decide) (by decide) (by decide) (by decide) (by decide) (by decide)
      (by decide) (by decide) (by decide) (by decide) (by decide) (by decide)⟩

/-- C1: for every day i, the storage increment `DSto[i+2]` written by
`_calculate_dsto_and_storage` equals `NI_Supply` plus rainfall volume minus
evapotranspiration volume, plus 1.9835 times (`Outlet2USBK` + `Outlet1USBK` +
`WSA_MIA` + `WSA_NNR` - `Outlet1USEWS`), minus `TotRegEW`, minus `TotRegSo`,
plus the day's storage-deviation correction. -/
theorem dsto_mass_balance (i : ℕ) (storage_deviation : ℕ → ℚ) (s : MState) :
    (calculate_dsto i storage_deviation s).DSto (i + 2) =
      s.NI_Supply (i + 2) + s.RF (i + 2) - s.ET (i + 2)
        + (19835 / 10000)
          * (s.Outlet2USBK (i + 2) + s.Outlet1USBK (i + 2)
            + s.WSA_MIA (i + 2) + s.WSA_NNR (i + 2) - s.Outlet1USEWS (i + 2))
        - s.TotRegEW (i + 2) - s.TotRegSo (i + 2) + storage_deviation (i + 2) := by
  simp [calculate_dsto, Function.update_same]

/-- Helper for C5: a run of guarded THC writes over indices all below
`n_rows - 2` leaves every slot at or beyond `n_rows - 2` untouched. -/
theorem foldl_thcWriteStep_preserves_tail {α : Type} (n_rows j : ℕ)
    (hj : n_rows - 2 ≤ j) (compute : ℕ → α) (l : List ℕ)
    (hl : ∀ i ∈ l, i < n_rows - 2) (arr : ℕ → α) :
    l.foldl (thcWriteStep n_rows compute) arr j = arr j := by
  induction l generalizing arr with
  | nil => rfl
  | cons a as ih =>
    have ha : a < n_rows - 2 := hl a (List.mem_cons_self a as)
    have has : ∀ i ∈ as, i < n_rows - 2 := fun i hi => hl i (List.mem_cons_of_mem a hi)
    rw [List.foldl_cons, ih has]
    unfold thcWriteStep
    rw [if_pos ha, Function.update_noteq (by omega)]

/-- C5: the THC / adaptive-protocol module is invoked only for loop indices
strictly below `n_rows - 2`, and the day slots at or beyond `n_rows - 2`,
which it never reaches, keep the zero (numeric outputs such as
`Post_Ap_Baseflow` and `Post_AP_EWS`) and false (boolean rule flags) defaults
of the zero-initialised arrays after the whole loop. -/
theorem thc_tail_slots_keep_defaults (n_rows i j : ℕ)
    (fq : ℕ → ℚ) (fb : ℕ → Bool) (hj : n_rows - 2 ≤ j) :
    (thcInvoked n_rows i = true → i < n_rows - 2) ∧
    runTHCOutputs n_rows (0 : ℚ) fq j = 0 ∧
    runTHCOutputs n_rows false fb j = false := by
  refine ⟨fun h => of_decide_eq_true h, ?_, ?_⟩
  · exact foldl_thcWriteStep_preserves_tail n_rows j hj fq (List.range (n_rows - 2))
      (fun i hi => List.mem_range.mp hi) (fun _ => 0)
  · exact foldl_thcWriteStep_preserves_tail n_rows j hj fb (List.range (n_rows - 2))
      (fun i hi => List.mem_range.mp hi) (fun _ => false)

/-- C5 witness: a 5-row horizon; slot 3 (the last adaptive-protocol slot) is
never written and keeps its defaults. -/
theorem thc_tail_slots_keep_defaults_witness :
    (5 - 2 ≤ 3) ∧
    ((thcInvoked 5 1 = true → 1 < 5 - 2) ∧
      runTHCOutputs 5 (0 : ℚ) (fun _ => 7) 3 = 0 ∧
      runTHCOutputs 5 false (fun _ => true) 3 = false) :=
  ⟨by norm_num, thc_tail_slots_keep_defaults 5 1 3 (fun _ => 7) (fun _ => true) (by norm_num)⟩

/-- Helper for C9: a stage equal to the k-th breakpoint of a strictly
increasing ladder is classified with ordinal k. -/
theorem zoneLadderClass_at_boundary (l : List ℚ) (hs : l.Sorted (· < ·))
    (k : ℕ) (hk : k < l.length) :
    zoneLadderClass l (l.get ⟨k, hk⟩) = k := by
  induction l generalizing k with
  | nil => simp at hk
  | cons t ts ih =>
    rcases List.sorted_cons.mp hs with ⟨ht, hts⟩
    match k with
    | 0 => simp [zoneLadderClass]
    | Nat.succ j =>
      have hj : j < ts.length := by simpa using hk
      have hmem : ts.get ⟨j, hj⟩ ∈ ts := ts.get_mem _ _
      have hgt : t < ts.get ⟨j, hj⟩ := ht _ hmem
      show zoneLadderClass (t :: ts) (ts.get ⟨j, hj⟩) = j + 1
      unfold zoneLadderClass
      rw [if_neg (not_le.mpr hgt), ih hts j hj]

/-- Helper for C9: any stage strictly above the k-th breakpoint of a strictly
increasing ladder is classified with an ordinal above k. -/
theorem zoneLadderClass_above_boundary (l : List ℚ) (hs : l.Sorted (· < ·))
    (k : ℕ) (hk : k < l.length) (stage : ℚ) (hst : l.get ⟨k, hk⟩ < stage) :
    k < zoneLadderClass l stage := by
  induction l generalizing k with
  | nil => simp at hk
  | cons t ts ih =>
    rcases List.sorted_cons.mp hs with ⟨ht, hts⟩
    match k with
    | 0 =>
      have : t < stage := hst
      unfold zoneLadderClass
      rw [if_neg (not_le.mpr this)]
      omega
    | Nat.succ j =>
      have hj : j < ts.length := by simpa using hk
      have hmem : ts.get ⟨j, hj⟩ ∈ ts := ts.get_mem _ _
      have hstage : t < stage := lt_trans (ht _ hmem) hst
      unfold zoneLadderClass
      rw [if_neg (not_le.mpr hstage)]
      have := ih hts j hj hst
      omega

/-- C9: on a strictly increasing threshold ladder, a stage exactly equal to
the k-th boundary is classified into zone k - the lower of the two zones
meeting at that boundary, since every stage strictly above the boundary gets
a strictly larger zone ordinal; the boundary comparison is inclusive in
favour of the lower zone. -/
theorem zone_classifier_boundary_tie_resolves_low (l : List ℚ)
    (hs : l.Sorted (· < ·)) (k : ℕ) (hk : k < l.length)
    (stage : ℚ) (hst : l.get ⟨k, hk⟩ < stage) :
    zoneLadderClass l (l.get ⟨k, hk⟩) = k ∧
    zoneLadderClass l (l.get ⟨k, hk⟩) < zoneLadderClass l stage := by
  have hb := zoneLadderClass_at_boundary l hs k hk
  refine ⟨hb, ?_⟩
  rw [hb]
  exact zoneLadderClass_above_boundary l hs k hk stage hst

/-- C9 witness: the eight-breakpoint ladder 1..8 with stage exactly on the
fourth breakpoint, compared against a stage just above it. -/
theorem zone_classifier_boundary_tie_resolves_low_witness :
    ([(1:ℚ), 2, 3, 4, 5, 6, 7, 8].Sorted (· < ·)) ∧
    ([(1:ℚ), 2, 3, 4, 5, 6, 7, 8].get ⟨3, by norm_num⟩ < 9/2) ∧
    (zoneLadderClass [(1:ℚ), 2, 3, 4, 5, 6, 7, 8]
        ([(1:ℚ), 2, 3, 4, 5, 6, 7, 8].get ⟨3, by norm_num⟩) = 3 ∧
      zoneLadderClass [(1:ℚ), 2, 3, 4, 5, 6, 7, 8]
          ([(1:ℚ), 2, 3, 4, 5, 6, 7, 8].get ⟨3, by norm_num⟩)
        < zoneLadderClass [(1:ℚ), 2, 3, 4, 5, 6, 7, 8] (9/2)) :=
  ⟨by norm_num [List.sorted_cons], by norm_num [List.get],
    zone_classifier_boundary_tie_resolves_low [(1:ℚ), 2, 3, 4, 5, 6, 7, 8]
      (by norm_num [List.sorted_cons]) 3 (by norm_num) (9/2)
      (by norm_num [List.get])⟩

/-- Helper for C8: all unconditional write instructions carry their
variable's fixed day offset. -/
theorem static_instrs_carry_fixed_offset :
    (∀ p ∈ instrsA, p.2 = dayOffset p.1) ∧ (∀ p ∈ instrsB, p.2 = dayOffset p.1) ∧
    (∀ p ∈ instrsC, p.2 = dayOffset p.1) ∧ (∀ p ∈ instrsTHC, p.2 = dayOffset p.1) ∧
    (∀ p ∈ instrsD, p.2 = dayOffset p.1) := by
  decide

/-- Helper for C8: every write instruction of a loop body run carries its
variable's fixed day offset. -/
theorem bodyInstrs_carry_fixed_offset (n_rows i : ℕ) (p : MVar × ℕ)
    (hp : p ∈ bodyInstrs n_rows i) : p.2 = dayOffset p.1 := by
  obtain ⟨ha, hb, hc, ht, hd⟩ := static_instrs_carry_fixed_offset
  unfold bodyInstrs at hp
  simp only [List.mem_append] at hp
  rcases hp with ((((((hp | hp) | hp) | hp) | hp) | hp) | hp)
  · exact ha p hp
  · rcases Nat.decLe 3 i with h3 | h3
    · rw [if_neg h3] at hp
      exact absurd hp (List.not_mem_nil p)
    · rw [if_pos h3] at hp
      rw [List.mem_singleton] at hp
      subst hp
      rfl
  · exact hb p hp
  · rcases Nat.decLe 6 i with h6 | h6
    · rw [if_neg h6] at hp
      exact absurd hp (List.not_mem_nil p)
    · rw [if_pos h6] at hp
      rw [List.mem_singleton] at hp
      subst hp
      rfl
  · exact hc p hp
  · rcases Nat.decLt i (n_rows - 2) with hg | hg
    · rw [if_neg hg] at hp
      exact absurd hp (List.not_mem_nil p)
    · rw [if_pos hg] at hp
      exact ht p hp
  · exact hd p hp

/-- Helper for C8: a cell assigned by iteration `i` sits at the variable's
fixed day offset from `i`. -/
theorem loopWrites_cell_at_fixed_offset (n_rows i : ℕ) (v : MVar) (c : ℕ)
    (h : (v, c) ∈ loopWrites n_rows i) : c = i + dayOffset v := by
  unfold loopWrites at h
  rcases List.mem_map.mp h with ⟨p, hp, hpe⟩
  have hoff := bodyInstrs_carry_fixed_offset n_rows i p hp
  rcases Prod.mk.injEq .. |>.mp hpe with ⟨hv, hc⟩
  rw [← hc, ← hv, hoff]

/-- C8: any cell of a time-indexed model-variable array assigned by loop
iteration `i` sits at the variable's fixed day offset from `i`, and no other
iteration `j` assigns that cell - so each per-day cell is written by exactly
one iteration and is untouched by all later ones. -/
theorem loop_iterations_write_disjoint_cells (n_rows i j : ℕ) (v : MVar) (c : ℕ)
    (hij : i ≠ j) (hi : (v, c) ∈ loopWrites n_rows i) :
    c = i + dayOffset v ∧ (v, c) ∉ loopWrites n_rows j := by
  have hci := loopWrites_cell_at_fixed_offset n_rows i v c hi
  refine ⟨hci, fun hj => ?_⟩
  have hcj := loopWrites_cell_at_fixed_offset n_rows j v c hj
  omega

/-- C8 witness: iteration 0 writes `WSM_Zone[2]`; iteration 1 does not. -/
theorem loop_iterations_write_disjoint_cells_witness :
    ((0 : ℕ) ≠ 1 ∧ (MVar.WSM_Zone, 2) ∈ loopWrites 10 0) ∧
    (2 = 0 + dayOffset MVar.WSM_Zone ∧ (MVar.WSM_Zone, 2) ∉ loopWrites 10 1) :=
  ⟨⟨by decide, by decide⟩,
    loop_iterations_write_disjoint_cells 10 0 1 MVar.WSM_Zone 2 (by decide) (by decide)⟩

end Loone
